import Mathlib

/-!
Shallow embedding of the pairing-code lifecycle, device-graph and usage-ledger
endpoints of `server.js` (device-pairing and location-sharing backend).

The relational store is modelled as a record of lists of rows (`DB`), with the
behaviour the code relies on: `.single()` succeeds only when exactly one row
matches, the `device_connections` table has a unique constraint on the ordered
pair (initiator, paired) reported as error code `23505`, inserted rows receive
fresh ids from a counter, and omitted `created_at` / `expires_at` columns of
`pairing_codes` default to the insertion time and insertion time + 24 hours.
Timestamps are `Nat` (milliseconds), coordinates are `Option` rationals with
`none` standing for SQL NULL / JS `undefined`.  Each endpoint handler becomes a
function from the request parameters and the current `DB` to a response and the
next `DB`.  The `validate` handler additionally takes a `connFault` parameter:
an injected storage-layer failure of the `device_connections` insert (`none`
means the store behaves normally), mirroring the fact that the code branches on
the error object returned by that insert.
-/

/-- A row of the `users` table (only the columns the pairing core reads). -/
structure User where
  id : Nat
  deviceId : String
  deviceName : String
deriving DecidableEq, Repr

/-- A row of the `pairing_codes` table. -/
structure PairingCode where
  id : Nat
  userId : Nat
  code : String
  latitude : Option ℚ
  longitude : Option ℚ
  accuracy : Option ℚ
  createdAt : Nat
  expiresAt : Nat
  updatedAt : Option Nat
deriving DecidableEq, Repr

/-- A row of the `device_connections` table. -/
structure DeviceConnection where
  id : Nat
  initiatorUserId : Nat
  pairedUserId : Nat
deriving DecidableEq, Repr

/-- A row of the `code_usage` ledger table. -/
structure CodeUsage where
  id : Nat
  pairingCodeId : Nat
  userId : Nat
  deviceId : Option String
  codeOwnerId : Nat
  timestamp : Nat
deriving DecidableEq, Repr

/-- The state of the relational store: the four tables the pairing core
touches, plus a fresh-id counter standing for the id generator. -/
structure DB where
  users : List User
  pairingCodes : List PairingCode
  deviceConnections : List DeviceConnection
  codeUsage : List CodeUsage
  nextId : Nat
deriving DecidableEq, Repr

/-- An endpoint response: either a success payload or an HTTP error status with
its message. -/
inductive Resp (α : Type) where
  | ok : α → Resp α
  | err : Nat → String → Resp α
deriving DecidableEq, Repr

/-- True when the response is a success payload. -/
def Resp.isOk {α : Type} : Resp α → Bool
  | .ok _ => true
  | .err _ _ => false

/-- Supabase `.single()`: returns the row when exactly one row matches the
query, and an error (here `none`) when zero or several rows match. -/
def single {α : Type} : List α → Option α
  | [x] => some x
  | _ => none

/-- JS `s.replace(dash, empty)` with a string pattern removes only the first
occurrence of the hyphen. -/
def removeFirstHyphen : List Char → List Char
  | [] => []
  | c :: cs => if c = '-' then cs else c :: removeFirstHyphen cs

/-- JS `toUpperCase()` on the characters of a string. -/
def upperString (s : String) : String :=
  String.mk (s.data.map Char.toUpper)

/-- The code normalisation every endpoint applies to a user-supplied code:
`code.replace(dash, empty).toUpperCase()`. -/
def cleanCode (s : String) : String :=
  upperString (String.mk (removeFirstHyphen s.data))

/-- JS `x || null` applied to an optional numeric field: `0` (and absence) is
falsy and becomes NULL. -/
def orNull : Option ℚ → Option ℚ
  | some v => if v = 0 then none else some v
  | none => none

/-- JS `x || null` applied to an optional string field: the empty string (and
absence) is falsy and becomes NULL. -/
def orNullStr : Option String → Option String
  | some s => if s = "" then none else some s
  | none => none

/-- JS falsiness of an optional numeric value: `undefined`, `null` and `0` are
falsy. -/
def numFalsy : Option ℚ → Bool
  | none => true
  | some v => v = 0

/-- 24 hours in milliseconds: the `pairing_codes.expires_at` column default is
the insertion time plus this interval. -/
def ms24h : Nat := 86400000

/-- Digit characters of a base-36 fractional expansion, as produced by JS
`Number.prototype.toString(36)`: `0`-`9` then `a`-`z`. -/
def base36Char (d : Fin 36) : Char :=
  if d.val < 10 then Char.ofNat (48 + d.val) else Char.ofNat (87 + d.val)

/-- JS `r.toString(36)` for `r = Math.random()`, determined by the (finite,
trailing-zero-free) base-36 fractional expansion of `r`: the string `0` when
`r = 0`, otherwise `0.` followed by the digits. -/
def randomToString36 (digits : List (Fin 36)) : String :=
  match digits with
  | [] => "0"
  | _ => "0." ++ String.mk (digits.map base36Char)

/-- JS `s.substring(a, b)`: the characters from index `a` (inclusive) to `b`
(exclusive), clipped to the length of the string. -/
def jsSubstring (s : String) (a b : Nat) : String :=
  String.mk ((s.data.drop a).take (b - a))

/-- The code generator of `POST /api/pairing/generate`:
`Math.random().toString(36).substring(2, 8).toUpperCase()`, as a function of
the random value's base-36 fractional digit expansion. -/
def generateCode (digits : List (Fin 36)) : String :=
  upperString (jsSubstring (randomToString36 digits) 2 8)

/-- The wire format the spec requires of a generated code: exactly 6 characters,
each an uppercase letter or a digit. -/
def matchesCodeFormat (s : String) : Bool :=
  decide (s.length = 6) && s.data.all (fun c =>
    ('A' ≤ c ∧ c ≤ 'Z') ∨ ('0' ≤ c ∧ c ≤ '9'))

/-- Handler of `POST /api/pairing/generate`: optionally renames the owner's
device, then inserts a `pairing_codes` row; the store rejects a duplicate code
string (unique constraint), and fills `created_at` with the insertion time and
`expires_at` with the insertion time + 24h (column defaults). -/
def generate (db : DB) (now : Nat) (userId : Nat) (digits : List (Fin 36))
    (latitude longitude accuracy : Option ℚ) (deviceName : Option String) :
    Resp String × DB :=
  let code := generateCode digits
  let db1 : DB :=
    match deviceName with
    | some dn =>
        if dn = "" then db
        else { db with users := db.users.map (fun u =>
                 if u.id = userId then { u with deviceName := dn } else u) }
    | none => db
  if db1.pairingCodes.any (fun pc => pc.code = code) then
    (Resp.err 500 "duplicate key value violates unique constraint", db1)
  else
    (Resp.ok code,
     { db1 with
        pairingCodes := db1.pairingCodes ++
          [{ id := db1.nextId, userId := userId, code := code,
             latitude := orNull latitude, longitude := orNull longitude,
             accuracy := orNull accuracy,
             createdAt := now, expiresAt := now + ms24h, updatedAt := none }],
        nextId := db1.nextId + 1 })

/-- Deletion of a `pairing_codes` row by id, as in the final step of
`POST /api/pairing/validate`. -/
def deleteCodeById (db : DB) (cid : Nat) : DB :=
  { db with pairingCodes := db.pairingCodes.filter (fun q => q.id ≠ cid) }

/-- Handler of `POST /api/pairing/validate`: look up the code (`.single()`),
reject when expired (`expiresAt < now`), look up the owning user, insert a
`device_connections` row tolerating only the uniqueness violation `23505`,
delete the code row, and return the owner's profile.  `connFault` injects a
storage-layer failure of the connection insert (`none` = normal store). -/
def validate (db : DB) (now : Nat) (code : String) (initiatorUserId : Nat)
    (connFault : Option String) : Resp User × DB :=
  let clean := cleanCode code
  match single (db.pairingCodes.filter (fun pc => pc.code = clean)) with
  | none => (Resp.err 400 "Invalid or expired pairing code", db)
  | some pc =>
    if pc.expiresAt < now then
      (Resp.err 400 "Pairing code has expired", db)
    else
      match single (db.users.filter (fun u => u.id = pc.userId)) with
      | none => (Resp.err 400 "User not found", db)
      | some owner =>
        let ins : Option String × DB :=
          match connFault with
          | some e => (some e, db)
          | none =>
            if db.deviceConnections.any (fun c =>
                c.initiatorUserId = initiatorUserId ∧ c.pairedUserId = owner.id) then
              (some "23505", db)
            else
              (none,
               { db with
                  deviceConnections := db.deviceConnections ++
                    [{ id := db.nextId, initiatorUserId := initiatorUserId,
                       pairedUserId := owner.id }],
                  nextId := db.nextId + 1 })
        match ins.1 with
        | some e =>
            if e = "23505" then (Resp.ok owner, deleteCodeById ins.2 pc.id)
            else (Resp.err 500 e, ins.2)
        | none => (Resp.ok owner, deleteCodeById ins.2 pc.id)

/-- A peer summary returned by `GET /api/devices/paired/:userId`. -/
structure PeerSummary where
  id : Nat
  deviceName : String
  deviceId : String
deriving DecidableEq, Repr

/-- Handler of `GET /api/devices/paired/:userId`: fetches every connection row
where the user appears as initiator or paired party, and for each row resolves
the user referenced by the `paired_user_id` column (the embedded
`users:paired_user_id` join), skipping rows whose join came back null. -/
def listPaired (db : DB) (userId : Nat) : List PeerSummary :=
  (db.deviceConnections.filter (fun c =>
      c.initiatorUserId = userId ∨ c.pairedUserId = userId)).filterMap
    (fun c =>
      match single (db.users.filter (fun u => u.id = c.pairedUserId)) with
      | some u => some { id := u.id, deviceName := u.deviceName, deviceId := u.deviceId }
      | none => none)

/-- Handler of `DELETE /api/devices/disconnect`: deletes every connection row
matching (userId, pairedUserId) in either direction. -/
def disconnect (db : DB) (userId pairedUserId : Nat) : Resp String × DB :=
  (Resp.ok "Device disconnected successfully",
   { db with deviceConnections := db.deviceConnections.filter (fun c =>
      ¬ ((c.initiatorUserId = userId ∧ c.pairedUserId = pairedUserId) ∨
         (c.initiatorUserId = pairedUserId ∧ c.pairedUserId = userId))) })

/-- The row filter `.eq(pairing_code_id, cid).eq(user_id, uid)` used by the
usage-ledger endpoints. -/
def usageMatches (cid uid : Nat) (r : CodeUsage) : Bool :=
  decide (r.pairingCodeId = cid ∧ r.userId = uid)

/-- Handler of `POST /api/codes/:code/track-usage`: looks up the code, then the
existing ledger row for (code id, user id) with `.single()`; when exactly one
exists, refreshes its timestamp and device id, otherwise inserts a new row
denormalising the code owner's id. -/
def trackUsage (db : DB) (now : Nat) (code : String) (userId : Nat)
    (deviceId : Option String) : Resp String × DB :=
  let clean := cleanCode code
  match single (db.pairingCodes.filter (fun pc => pc.code = clean)) with
  | none => (Resp.err 400 "Invalid code", db)
  | some pc =>
    match single (db.codeUsage.filter (usageMatches pc.id userId)) with
    | some existing =>
      (Resp.ok "Code usage updated successfully",
       { db with codeUsage := db.codeUsage.map (fun r =>
          if r.id = existing.id then
            { r with timestamp := now, deviceId := orNullStr deviceId }
          else r) })
    | none =>
      (Resp.ok "Code usage tracked successfully",
       { db with
          codeUsage := db.codeUsage ++
            [{ id := db.nextId, pairingCodeId := pc.id, userId := userId,
               deviceId := orNullStr deviceId, codeOwnerId := pc.userId,
               timestamp := now }],
          nextId := db.nextId + 1 })

/-- The ledger rows recorded for a given (pairing-code id, redeeming user id)
pair. -/
def pairRows (db : DB) (cid uid : Nat) : List CodeUsage :=
  db.codeUsage.filter (usageMatches cid uid)

/-- One entry of the usage-history payload. -/
structure UsageEntry where
  id : Nat
  userId : Nat
  deviceId : Option String
  timestamp : Nat
  deviceName : String
deriving DecidableEq, Repr

/-- The usage-history payload of `GET /api/codes/:code/usage-history`. -/
structure UsageHistory where
  code : String
  usageCount : Nat
  usage : List UsageEntry
deriving DecidableEq, Repr

/-- Insertion step of the newest-first ordering (`.order(timestamp,
descending)`) applied to ledger rows. -/
def insertTsDesc (r : CodeUsage) : List CodeUsage → List CodeUsage
  | [] => [r]
  | x :: xs => if x.timestamp < r.timestamp then r :: x :: xs else x :: insertTsDesc r xs

/-- Newest-first ordering of ledger rows by timestamp. -/
def sortTsDesc (l : List CodeUsage) : List CodeUsage :=
  l.foldr insertTsDesc []

/-- The `users:user_id(device_name)` join with the handler's
`Unknown Device` fallback. -/
def resolveDeviceName (db : DB) (uid : Nat) : String :=
  match single (db.users.filter (fun u => u.id = uid)) with
  | some u => u.deviceName
  | none => "Unknown Device"

/-- Handler of `GET /api/codes/:code/usage-history`: looks up the code, rejects
with 403 unless the requester is the code's owner, then returns the ledger rows
of the code, newest first, with resolved device names. -/
def listUsageHistory (db : DB) (code : String) (requesterId : Nat) :
    Resp UsageHistory :=
  let clean := cleanCode code
  match single (db.pairingCodes.filter (fun pc => pc.code = clean)) with
  | none => Resp.err 400 "Invalid code"
  | some pc =>
    if pc.userId ≠ requesterId then
      Resp.err 403 "Not authorized to view this code usage"
    else
      let rows := sortTsDesc (db.codeUsage.filter (fun r => r.pairingCodeId = pc.id))
      let entries := rows.map (fun r =>
        { id := r.id, userId := r.userId, deviceId := r.deviceId,
          timestamp := r.timestamp,
          deviceName := resolveDeviceName db r.userId : UsageEntry })
      Resp.ok { code := clean, usageCount := entries.length, usage := entries }

/-- Handler of `DELETE /api/codes/:code/usage/:usageId`: looks up the code,
rejects with 403 unless the requester is the owner, then deletes the ledger
rows matching both the usage id and the code id (compound filter), answering
with the success message whether or not any row matched. -/
def removeUsageEntry (db : DB) (code : String) (usageId : Nat)
    (requesterId : Nat) : Resp String × DB :=
  let clean := cleanCode code
  match single (db.pairingCodes.filter (fun pc => pc.code = clean)) with
  | none => (Resp.err 400 "Invalid code", db)
  | some pc =>
    if pc.userId ≠ requesterId then
      (Resp.err 403 "Not authorized to remove users from this code", db)
    else
      (Resp.ok "User removed successfully",
       { db with codeUsage := db.codeUsage.filter (fun r =>
          ¬ (r.id = usageId ∧ r.pairingCodeId = pc.id)) })

/-- The location payload of `GET /api/pairing/location/:code`. -/
structure LocationInfo where
  code : String
  latitude : Option ℚ
  longitude : Option ℚ
  accuracy : Option ℚ
  deviceName : Option String
  createdAt : Nat
deriving DecidableEq, Repr

/-- Handler of `GET /api/pairing/location/:code`: looks up the code and reports
no location data when the stored latitude or longitude is JS-falsy (NULL or
zero). -/
def getLocation (db : DB) (code : String) : Resp LocationInfo :=
  let clean := cleanCode code
  match single (db.pairingCodes.filter (fun pc => pc.code = clean)) with
  | none => Resp.err 400 "Invalid pairing code"
  | some pc =>
    if numFalsy pc.latitude || numFalsy pc.longitude then
      Resp.err 400 "Location data not available for this code"
    else
      Resp.ok { code := pc.code, latitude := pc.latitude,
                longitude := pc.longitude, accuracy := pc.accuracy,
                deviceName :=
                  (single (db.users.filter (fun u => u.id = pc.userId))).map
                    User.deviceName,
                createdAt := pc.createdAt }

/-- Handler of `POST /api/pairing/update-location/:code`: rejects when latitude
or longitude is JS-falsy (absent or zero), then updates the located code row in
place. -/
def updateLocation (db : DB) (now : Nat) (code : String)
    (latitude longitude accuracy : Option ℚ) : Resp String × DB :=
  let clean := cleanCode code
  if numFalsy latitude || numFalsy longitude then
    (Resp.err 400 "Missing required fields: latitude, longitude", db)
  else
    match single (db.pairingCodes.filter (fun pc => pc.code = clean)) with
    | none => (Resp.err 400 "Invalid pairing code", db)
    | some pc =>
      (Resp.ok "Location updated successfully",
       { db with pairingCodes := db.pairingCodes.map (fun p =>
          if p.id = pc.id then
            { p with latitude := latitude, longitude := longitude,
                     accuracy := orNull accuracy, updatedAt := some now }
          else p) })

/-! Concrete fixtures used by the witnesses and counterexamples: two users, a
live code owned by the second user, and an otherwise empty store. -/

/-- Test user A: the seeker device. -/
def userA : User := { id := 1, deviceId := "dev-A", deviceName := "Phone A" }

/-- Test user B: the station device (code owner). -/
def userB : User := { id := 2, deviceId := "dev-B", deviceName := "Phone B" }

/-- A live pairing code owned by `userB`, created at time 0. -/
def pcB : PairingCode :=
  { id := 10, userId := 2, code := "AB12CD", latitude := none, longitude := none,
    accuracy := none, createdAt := 0, expiresAt := ms24h, updatedAt := none }

/-- Store holding `userA`, `userB` and the live code `pcB`. -/
def dbAB : DB :=
  { users := [userA, userB], pairingCodes := [pcB],
    deviceConnections := [], codeUsage := [], nextId := 11 }

/-- Store holding only `userA` and no codes. -/
def dbA : DB :=
  { users := [userA], pairingCodes := [],
    deviceConnections := [], codeUsage := [], nextId := 5 }

/-- Characterisation of `single`: it answers `some x` exactly when the row list
is the singleton `[x]`. -/
theorem single_eq_some {α : Type} {l : List α} {x : α} :
    single l = some x ↔ l = [x] := by
  cases l with
  | nil => simp [single]
  | cons a t =>
    cases t with
    | nil => simp [single]
    | cons b t2 => simp [single]

/-- C1: the claim says that after user A validates a code owned by user B,
`listPaired(A)` includes B and `listPaired(B)` includes A.  On the code, the
handler of `GET /api/devices/paired/:userId` fetches rows where the user is
initiator or paired party but always resolves the profile referenced by the
`paired_user_id` column, so for the connection row (initiator = A, paired = B)
created by the validation, `listPaired(B)` returns B's own summary and never
A's: the symmetric half of the claim fails on the code. -/
theorem listPaired_resolves_paired_column :
    (validate dbAB 5 "AB12CD" 1 none).1 = Resp.ok userB ∧
    listPaired (validate dbAB 5 "AB12CD" 1 none).2 1 =
      [{ id := 2, deviceName := "Phone B", deviceId := "dev-B" }] ∧
    listPaired (validate dbAB 5 "AB12CD" 1 none).2 2 =
      [{ id := 2, deviceName := "Phone B", deviceId := "dev-B" }] ∧
    ((validate dbAB 5 "AB12CD" 1 none).2.deviceConnections =
      [{ id := 11, initiatorUserId := 1, pairedUserId := 2 }]) ∧
    ((listPaired (validate dbAB 5 "AB12CD" 1 none).2 2).all
      (fun p => p.id ≠ 1)) = true := by
  decide

/-- C2: the claim says every successful generate returns a code matching
`^[A-Z0-9]{6}$`.  The generator is
`Math.random().toString(36).substring(2, 8).toUpperCase()`; when
`Math.random()` returns 0.5 its base-36 string is `0.i`, so the generated code
is the single character `I`: the insert succeeds and a record owned by the
caller with expiry = created-at + 24h exists, yet the returned code does not
match the required format, contradicting the claim (and the code's own comment
`Generate random 6-character code`). -/
theorem generate_short_code_possible :
    generateCode [(18 : Fin 36)] = "I" ∧
    (generate dbA 1000 1 [(18 : Fin 36)] none none none none).1 = Resp.ok "I" ∧
    matchesCodeFormat "I" = false ∧
    (∃ pc ∈ (generate dbA 1000 1 [(18 : Fin 36)] none none none none).2.pairingCodes,
      pc.userId = 1 ∧ pc.expiresAt = pc.createdAt + ms24h) := by
  decide

/-- Characterisation of `single` on an empty-or-singleton row list: when the
lookup reports no single row and at most one row matches, no row matches. -/
theorem single_none_short {α : Type} {l : List α}
    (h : single l = none) (hlen : l.length ≤ 1) : l = [] := by
  cases l with
  | nil => rfl
  | cons a t =>
    cases t with
    | nil => simp [single] at h
    | cons b t2 => simp at hlen

/-- Any validate call on a store with no row for the normalised code answers
with the NotFound error and changes nothing. -/
theorem validate_not_found
    (db : DB) (now : Nat) (code : String) (seeker : Nat) (cf : Option String)
    (h : db.pairingCodes.filter (fun p => p.code = cleanCode code) = []) :
    validate db now code seeker cf =
      (Resp.err 400 "Invalid or expired pairing code", db) := by
  unfold validate
  simp only [h]
  rfl

/-- C3: one-time use of codes.  For a stored unexpired code whose owner exists,
the first validate succeeds returning the owner's profile and deletes the code
row (no row with that code string remains), and a second validate with the same
code fails with the NotFound error. -/
theorem validate_one_time_use
    (db : DB) (now1 now2 : Nat) (code : String) (seeker : Nat)
    (pc : PairingCode) (owner : User)
    (hpc : single (db.pairingCodes.filter (fun p => p.code = cleanCode code)) = some pc)
    (hexp : ¬ pc.expiresAt < now1)
    (howner : single (db.users.filter (fun u => u.id = pc.userId)) = some owner) :
    (validate db now1 code seeker none).1 = Resp.ok owner ∧
    (validate db now1 code seeker none).2.pairingCodes.filter
      (fun q => q.code = cleanCode code) = [] ∧
    (validate (validate db now1 code seeker none).2 now2 code seeker none).1 =
      Resp.err 400 "Invalid or expired pairing code" := by
  have hfil : db.pairingCodes.filter (fun p => p.code = cleanCode code) = [pc] :=
    single_eq_some.mp hpc
  have hshape : (validate db now1 code seeker none).1 = Resp.ok owner ∧
      (validate db now1 code seeker none).2.pairingCodes =
        db.pairingCodes.filter (fun q => q.id ≠ pc.id) := by
    unfold validate
    simp only [hpc, if_neg hexp, howner]
    by_cases hdup : ∃ x ∈ db.deviceConnections,
        x.initiatorUserId = seeker ∧ x.pairedUserId = owner.id
    · simp [hdup, deleteCodeById]
    · simp [hdup, deleteCodeById]
  have hgone : (validate db now1 code seeker none).2.pairingCodes.filter
      (fun q => q.code = cleanCode code) = [] := by
    rw [hshape.2]
    rw [List.filter_eq_nil_iff]
    intro q hq
    rw [List.mem_filter] at hq
    intro hcode
    have hq1 : q ∈ db.pairingCodes.filter (fun p => p.code = cleanCode code) :=
      List.mem_filter.mpr ⟨hq.1, hcode⟩
    rw [hfil] at hq1
    have hq2 : q = pc := by simpa using hq1
    have : q.id ≠ pc.id := by simpa using hq.2
    exact this (by rw [hq2])
  refine ⟨hshape.1, hgone, ?_⟩
  have := validate_not_found (validate db now1 code seeker none).2 now2 code seeker none hgone
  rw [this]

/-- Witness for C3: in the two-user fixture, user A redeems `AB12CD` owned by
user B at time 5; the code row is gone and a retry at time 7 is NotFound. -/
theorem validate_one_time_use_witness :
    (validate dbAB 5 "AB12CD" 1 none).1 = Resp.ok userB ∧
    (validate dbAB 5 "AB12CD" 1 none).2.pairingCodes.filter
      (fun q => q.code = cleanCode "AB12CD") = [] ∧
    (validate (validate dbAB 5 "AB12CD" 1 none).2 7 "AB12CD" 1 none).1 =
      Resp.err 400 "Invalid or expired pairing code" :=
  validate_one_time_use dbAB 5 7 "AB12CD" 1 pcB userB (by decide) (by decide)
    (by decide)

/-- C4: expired-code rejection leaves state unchanged.  When the stored code's
expiry is strictly before the current time, validate fails with the Expired
error and returns the store untouched: the code row still exists and no
connection was created. -/
theorem validate_expired_leaves_state
    (db : DB) (now : Nat) (code : String) (seeker : Nat) (connFault : Option String)
    (pc : PairingCode)
    (hpc : single (db.pairingCodes.filter (fun p => p.code = cleanCode code)) = some pc)
    (hexp : pc.expiresAt < now) :
    validate db now code seeker connFault =
      (Resp.err 400 "Pairing code has expired", db) := by
  unfold validate
  simp only [hpc, if_pos hexp]

/-- Witness for C4: validating `AB12CD` one millisecond after its expiry fails
Expired and leaves the fixture store unchanged. -/
theorem validate_expired_leaves_state_witness :
    validate dbAB (ms24h + 1) "AB12CD" 1 none =
      (Resp.err 400 "Pairing code has expired", dbAB) :=
  validate_expired_leaves_state dbAB (ms24h + 1) "AB12CD" 1 none pcB (by decide)
    (by decide)

/-- C5: side-effect ordering in validate.  With the lookup, expiry and owner
steps passing, a connection-insert failure with any error code other than the
uniqueness violation `23505` propagates as a 500 and leaves the store — in
particular the pairing-code row — untouched (the deletion step is never
reached), while the uniqueness violation `23505` is tolerated: validate still
succeeds and deletes the code row. -/
theorem validate_conn_insert_failure_ordering
    (db : DB) (now : Nat) (code : String) (seeker : Nat)
    (pc : PairingCode) (owner : User) (e : String)
    (hpc : single (db.pairingCodes.filter (fun p => p.code = cleanCode code)) = some pc)
    (hexp : ¬ pc.expiresAt < now)
    (howner : single (db.users.filter (fun u => u.id = pc.userId)) = some owner)
    (he : e ≠ "23505") :
    validate db now code seeker (some e) = (Resp.err 500 e, db) ∧
    validate db now code seeker (some "23505") =
      (Resp.ok owner, deleteCodeById db pc.id) := by
  unfold validate
  simp only [hpc, if_neg hexp, howner]
  constructor
  · simp [he]
  · simp

/-- Witness for C5: an injected insert failure `boom` propagates as a 500 with
the fixture store unchanged, while an injected `23505` still redeems the
code. -/
theorem validate_conn_insert_failure_ordering_witness :
    validate dbAB 5 "AB12CD" 1 (some "boom") = (Resp.err 500 "boom", dbAB) ∧
    validate dbAB 5 "AB12CD" 1 (some "23505") =
      (Resp.ok userB, deleteCodeById dbAB pcB.id) :=
  validate_conn_insert_failure_ordering dbAB 5 "AB12CD" 1 pcB userB "boom"
    (by decide) (by decide) (by decide) (by decide)

/-- The timestamp-and-device refresh of an existing ledger row never changes
which (pairing-code id, user id) pair the row belongs to. -/
theorem usageMatches_update (cid uid i t : Nat) (d : Option String) (r : CodeUsage) :
    usageMatches cid uid
      (if r.id = i then { r with timestamp := t, deviceId := d } else r) =
      usageMatches cid uid r := by
  by_cases h : r.id = i <;> simp [h, usageMatches]

/-- Shape of a trackUsage call on a store holding the code and at most one
ledger row for the (code id, user id) pair: the call succeeds, leaves the
pairing-code table untouched, and afterwards the pair has exactly one ledger
row, carrying the call's timestamp and device id. -/
theorem trackUsage_shape
    (db : DB) (t : Nat) (code : String) (uid : Nat) (dev : Option String)
    (pc : PairingCode)
    (hpc : single (db.pairingCodes.filter (fun p => p.code = cleanCode code)) = some pc)
    (hcount : (pairRows db pc.id uid).length ≤ 1) :
    (trackUsage db t code uid dev).1.isOk = true ∧
    (trackUsage db t code uid dev).2.pairingCodes = db.pairingCodes ∧
    ∃ i own, pairRows (trackUsage db t code uid dev).2 pc.id uid =
      [{ id := i, pairingCodeId := pc.id, userId := uid,
         deviceId := orNullStr dev, codeOwnerId := own, timestamp := t }] := by
  unfold trackUsage
  simp only [hpc]
  cases hsu : single (db.codeUsage.filter (usageMatches pc.id uid)) with
  | none =>
    have hemp : db.codeUsage.filter (usageMatches pc.id uid) = [] :=
      single_none_short hsu hcount
    refine ⟨rfl, rfl, db.nextId, pc.userId, ?_⟩
    show ((db.codeUsage ++ _).filter (usageMatches pc.id uid)) = _
    rw [List.filter_append, hemp]
    simp [usageMatches]
  | some r0 =>
    have hfil : db.codeUsage.filter (usageMatches pc.id uid) = [r0] :=
      single_eq_some.mp hsu
    have hr0 : usageMatches pc.id uid r0 = true := by
      have hmem : r0 ∈ db.codeUsage.filter (usageMatches pc.id uid) := by
        rw [hfil]
        exact List.mem_singleton_self r0
      exact (List.mem_filter.mp hmem).2
    have hr0f : r0.pairingCodeId = pc.id ∧ r0.userId = uid := by
      simpa [usageMatches] using hr0
    refine ⟨rfl, rfl, r0.id, r0.codeOwnerId, ?_⟩
    show ((db.codeUsage.map _).filter (usageMatches pc.id uid)) = _
    rw [List.filter_map]
    have hcomp : (usageMatches pc.id uid) ∘ (fun r =>
        if r.id = r0.id then { r with timestamp := t, deviceId := orNullStr dev }
        else r) = usageMatches pc.id uid := by
      funext r
      exact usageMatches_update pc.id uid r0.id t (orNullStr dev) r
    rw [hcomp, hfil]
    simp [hr0f.1, hr0f.2]

/-- C6: ledger idempotence.  Starting from a store holding the code and at
most one ledger row for the (pairing-code id, user id) pair, two successive
trackUsage calls at times `t1 ≤ t2` leave exactly one ledger row for the pair:
after the first call its timestamp is `t1`, and after the second it is `t2`
(hence at least the first call's stored timestamp) — the second call updated
the existing row instead of inserting a duplicate. -/
theorem trackUsage_idempotent_ledger
    (db : DB) (t1 t2 : Nat) (code : String) (uid : Nat) (dev1 dev2 : Option String)
    (pc : PairingCode)
    (hpc : single (db.pairingCodes.filter (fun p => p.code = cleanCode code)) = some pc)
    (hcount : (pairRows db pc.id uid).length ≤ 1)
    (ht : t1 ≤ t2) :
    (pairRows (trackUsage db t1 code uid dev1).2 pc.id uid).length = 1 ∧
    ((pairRows (trackUsage db t1 code uid dev1).2 pc.id uid).all
      (fun r => r.timestamp = t1)) = true ∧
    (pairRows (trackUsage (trackUsage db t1 code uid dev1).2 t2 code uid dev2).2
      pc.id uid).length = 1 ∧
    ((pairRows (trackUsage (trackUsage db t1 code uid dev1).2 t2 code uid dev2).2
      pc.id uid).all (fun r => r.timestamp = t2 ∧ t1 ≤ r.timestamp)) = true := by
  obtain ⟨-, hcodes1, i1, own1, hrows1⟩ :=
    trackUsage_shape db t1 code uid dev1 pc hpc hcount
  have hpc2 : single ((trackUsage db t1 code uid dev1).2.pairingCodes.filter
      (fun p => p.code = cleanCode code)) = some pc := by
    rw [hcodes1]
    exact hpc
  have hcount2 : (pairRows (trackUsage db t1 code uid dev1).2 pc.id uid).length ≤ 1 := by
    rw [hrows1]
    simp
  obtain ⟨-, hcodes2, i2, own2, hrows2⟩ :=
    trackUsage_shape (trackUsage db t1 code uid dev1).2 t2 code uid dev2 pc hpc2 hcount2
  refine ⟨by rw [hrows1]; rfl, by simp [hrows1], by rw [hrows2]; rfl,
    by simp [hrows2, ht]⟩

/-- Witness for C6: user A pastes `AB12CD` at times 3 and 4 in the fixture
store (whose ledger starts empty); one ledger row for the pair results, with
timestamp 4 after the second call. -/
theorem trackUsage_idempotent_ledger_witness :
    (pairRows (trackUsage dbAB 3 "AB12CD" 1 none).2 pcB.id 1).length = 1 ∧
    ((pairRows (trackUsage dbAB 3 "AB12CD" 1 none).2 pcB.id 1).all
      (fun r => r.timestamp = 3)) = true ∧
    (pairRows (trackUsage (trackUsage dbAB 3 "AB12CD" 1 none).2 4 "AB12CD" 1 none).2
      pcB.id 1).length = 1 ∧
    ((pairRows (trackUsage (trackUsage dbAB 3 "AB12CD" 1 none).2 4 "AB12CD" 1 none).2
      pcB.id 1).all (fun r => r.timestamp = 4 ∧ 3 ≤ r.timestamp)) = true :=
  trackUsage_idempotent_ledger dbAB 3 4 "AB12CD" 1 none none pcB (by decide)
    (by decide) (by decide)

/-- C7: owner-only visibility of usage history.  For an existing code, the
usage-history endpoint answers 403 whenever the requester differs from the
code's owner (whether or not the requester is a valid user — the handler never
consults the users table for authorisation), and returns the history payload
exactly when the requester is the owner. -/
theorem usage_history_owner_only
    (db : DB) (code : String) (requester : Nat) (pc : PairingCode)
    (hpc : single (db.pairingCodes.filter (fun p => p.code = cleanCode code)) = some pc) :
    (pc.userId ≠ requester →
      listUsageHistory db code requester =
        Resp.err 403 "Not authorized to view this code usage") ∧
    (pc.userId = requester →
      (listUsageHistory db code requester).isOk = true) := by
  unfold listUsageHistory
  simp only [hpc]
  constructor
  · intro h
    simp [h]
  · intro h
    simp [h, Resp.isOk]

/-- Witness for C7: user A (id 1, a valid user) asks for the history of
`AB12CD`, which user B (id 2) owns: 403; the owner gets the payload. -/
theorem usage_history_owner_only_witness :
    (pcB.userId ≠ 1 →
      listUsageHistory dbAB "AB12CD" 1 =
        Resp.err 403 "Not authorized to view this code usage") ∧
    (pcB.userId = 1 →
      (listUsageHistory dbAB "AB12CD" 1).isOk = true) :=
  usage_history_owner_only dbAB "AB12CD" 1 pcB (by decide)

/-- A ledger row belonging to a different pairing code than `AB12CD`'s, used to
exercise the compound delete filter. -/
def foreignUsage : CodeUsage :=
  { id := 20, pairingCodeId := 99, userId := 1, deviceId := none,
    codeOwnerId := 7, timestamp := 2 }

/-- Fixture store for the scoped-deletion claim: the two users, the live code
`pcB`, and one ledger row attached to a different code. -/
def dbC8 : DB :=
  { users := [userA, userB], pairingCodes := [pcB],
    deviceConnections := [], codeUsage := [foreignUsage], nextId := 21 }

/-- C8: scoped no-op deletion.  When the requester owns the code but the given
usage id matches no ledger row of that code (it belongs to another code or to
no row at all), the delete endpoint removes nothing — the whole store is
returned unchanged — yet still answers with the same success acknowledgement
an actual deletion produces. -/
theorem removeUsageEntry_scoped_noop
    (db : DB) (code : String) (usageId requester : Nat) (pc : PairingCode)
    (hpc : single (db.pairingCodes.filter (fun p => p.code = cleanCode code)) = some pc)
    (hown : pc.userId = requester)
    (hmiss : (db.codeUsage.all (fun r =>
        ¬ (r.id = usageId ∧ r.pairingCodeId = pc.id))) = true) :
    removeUsageEntry db code usageId requester =
      (Resp.ok "User removed successfully", db) := by
  unfold removeUsageEntry
  simp only [hpc]
  rw [if_neg (by simp [hown])]
  have hkeep : db.codeUsage.filter (fun r =>
      ¬ (r.id = usageId ∧ r.pairingCodeId = pc.id)) = db.codeUsage := by
    rw [List.filter_eq_self]
    intro a ha
    rw [List.all_eq_true] at hmiss
    exact hmiss a ha
  rw [hkeep]

/-- Witness for C8: owner B deletes usage id 20 under code `AB12CD`; the row
with id 20 belongs to code 99, so the ledger is unchanged and the call still
acknowledges success. -/
theorem removeUsageEntry_scoped_noop_witness :
    removeUsageEntry dbC8 "AB12CD" 20 2 =
      (Resp.ok "User removed successfully", dbC8) :=
  removeUsageEntry_scoped_noop dbC8 "AB12CD" 20 2 pcB (by decide) (by decide)
    (by decide)

/-- Every peer summary listed for a user comes from a stored connection row in
which the user is initiator or paired party, and carries the id referenced by
that row's `paired_user_id` column. -/
theorem listPaired_peer_from_connection
    (db : DB) (uid : Nat) (p : PeerSummary)
    (hp : p ∈ listPaired db uid) :
    ∃ c, c ∈ db.deviceConnections ∧
      (c.initiatorUserId = uid ∨ c.pairedUserId = uid) ∧
      p.id = c.pairedUserId := by
  unfold listPaired at hp
  rw [List.mem_filterMap] at hp
  obtain ⟨c, hc, hfc⟩ := hp
  rw [List.mem_filter] at hc
  refine ⟨c, hc.1, by simpa using hc.2, ?_⟩
  cases hs : single (db.users.filter (fun u => u.id = c.pairedUserId)) with
  | none =>
    rw [hs] at hfc
    cases hfc
  | some u =>
    rw [hs] at hfc
    have hu : u ∈ db.users.filter (fun v => v.id = c.pairedUserId) := by
      rw [single_eq_some] at hs
      rw [hs]
      exact List.mem_singleton_self u
    have huid : u.id = c.pairedUserId := by
      have := (List.mem_filter.mp hu).2
      simpa using this
    cases hfc
    exact huid

/-- C9: two-direction disconnect.  For distinct users A and B, disconnect
acknowledges success and deletes every connection row matching
(initiator = A, paired = B) or (initiator = B, paired = A); afterwards no peer
summary with B's id appears in listPaired(A) and none with A's id appears in
listPaired(B), regardless of which side initiated the pairing. -/
theorem disconnect_both_directions
    (db : DB) (A B : Nat) (hab : A ≠ B) :
    (disconnect db A B).1 = Resp.ok "Device disconnected successfully" ∧
    ((disconnect db A B).2.deviceConnections.all (fun c =>
       ¬ ((c.initiatorUserId = A ∧ c.pairedUserId = B) ∨
          (c.initiatorUserId = B ∧ c.pairedUserId = A)))) = true ∧
    ((listPaired (disconnect db A B).2 A).all (fun p => p.id ≠ B)) = true ∧
    ((listPaired (disconnect db A B).2 B).all (fun p => p.id ≠ A)) = true := by
  have hconn : ∀ c ∈ (disconnect db A B).2.deviceConnections,
      ¬ ((c.initiatorUserId = A ∧ c.pairedUserId = B) ∨
         (c.initiatorUserId = B ∧ c.pairedUserId = A)) := by
    intro c hc
    unfold disconnect at hc
    simp only at hc
    exact of_decide_eq_true (List.mem_filter.mp hc).2
  refine ⟨rfl, ?_, ?_, ?_⟩
  · rw [List.all_eq_true]
    intro c hc
    exact decide_eq_true (hconn c hc)
  · rw [List.all_eq_true]
    intro p hp
    obtain ⟨c, hc, hside, hpid⟩ := listPaired_peer_from_connection _ A p hp
    have hnot := hconn c hc
    simp only [decide_eq_true_eq]
    intro hpb
    rw [hpb] at hpid
    rcases hside with h | h
    · exact hnot (Or.inl ⟨h, hpid.symm⟩)
    · exact hab (by rw [← h, hpid])
  · rw [List.all_eq_true]
    intro p hp
    obtain ⟨c, hc, hside, hpid⟩ := listPaired_peer_from_connection _ B p hp
    have hnot := hconn c hc
    simp only [decide_eq_true_eq]
    intro hpa
    rw [hpa] at hpid
    rcases hside with h | h
    · exact hnot (Or.inr ⟨h, hpid.symm⟩)
    · exact hab (by rw [hpid, h])

/-- Fixture store for the disconnect claim: users A and B paired in both
directions (two directed rows). -/
def dbC9 : DB :=
  { users := [userA, userB], pairingCodes := [],
    deviceConnections :=
      [{ id := 1, initiatorUserId := 1, pairedUserId := 2 },
       { id := 2, initiatorUserId := 2, pairedUserId := 1 }],
    codeUsage := [], nextId := 3 }

/-- Witness for C9: disconnecting users 1 and 2 removes both directed rows and
neither id appears in the other's paired list afterwards. -/
theorem disconnect_both_directions_witness :
    (disconnect dbC9 1 2).1 = Resp.ok "Device disconnected successfully" ∧
    ((disconnect dbC9 1 2).2.deviceConnections.all (fun c =>
       ¬ ((c.initiatorUserId = 1 ∧ c.pairedUserId = 2) ∨
          (c.initiatorUserId = 2 ∧ c.pairedUserId = 1)))) = true ∧
    ((listPaired (disconnect dbC9 1 2).2 1).all (fun p => p.id ≠ 2)) = true ∧
    ((listPaired (disconnect dbC9 1 2).2 2).all (fun p => p.id ≠ 1)) = true :=
  disconnect_both_directions dbC9 1 2 (by decide)

/-- A stored code carrying latitude exactly 0 (a valid equator coordinate). -/
def pcZero : PairingCode :=
  { id := 12, userId := 2, code := "ZZ11ZZ", latitude := some 0,
    longitude := some 5, accuracy := none, createdAt := 0, expiresAt := ms24h,
    updatedAt := none }

/-- Fixture store for the zero-coordinate claim. -/
def dbC10 : DB :=
  { users := [userA, userB], pairingCodes := [pcZero],
    deviceConnections := [], codeUsage := [], nextId := 13 }

/-- C10: zero-valued coordinates are treated as absent.  An update-location
request whose latitude or longitude equals 0 is rejected with the
missing-coordinates validation error (0 is JS-falsy), and for a stored code
whose latitude or longitude equals 0, get-location reports that no location
data is available — the same error as when no location was ever attached. -/
theorem zero_coordinates_absent
    (db : DB) (now : Nat) (code1 code2 : String) (lat lon acc : Option ℚ)
    (pc : PairingCode)
    (hzero : lat = some 0 ∨ lon = some 0)
    (hpc : single (db.pairingCodes.filter (fun p => p.code = cleanCode code2)) = some pc)
    (hzero2 : pc.latitude = some 0 ∨ pc.longitude = some 0) :
    updateLocation db now code1 lat lon acc =
      (Resp.err 400 "Missing required fields: latitude, longitude", db) ∧
    getLocation db code2 =
      Resp.err 400 "Location data not available for this code" := by
  constructor
  · unfold updateLocation
    have hf : (numFalsy lat || numFalsy lon) = true := by
      rcases hzero with h | h <;> simp [h, numFalsy]
    simp [hf]
  · unfold getLocation
    simp only [hpc]
    have hf : (numFalsy pc.latitude || numFalsy pc.longitude) = true := by
      rcases hzero2 with h | h <;> simp [h, numFalsy]
    simp [hf]

/-- Witness for C10: pushing latitude 0 to any code is rejected as missing
coordinates, and the stored code `ZZ11ZZ` with latitude 0 reports no location
data. -/
theorem zero_coordinates_absent_witness :
    updateLocation dbC10 9 "AB12CD" (some 0) (some 7) none =
      (Resp.err 400 "Missing required fields: latitude, longitude", dbC10) ∧
    getLocation dbC10 "ZZ11ZZ" =
      Resp.err 400 "Location data not available for this code" :=
  zero_coordinates_absent dbC10 9 "AB12CD" "ZZ11ZZ" (some 0) (some 7) none pcZero
    (by decide) (by decide) (by decide)
